import Mathlib

/-!
Verification of the MQTT "Twitter-like" publisher/subscriber pair
(`publisher.py`, `subscriber.py`) against its natural-language
specification.  The two Python programs are shallowly embedded below:
pure helpers become Lean functions, the stateful GUI handlers become
explicit state-passing functions that additionally return the list of
raw transport (paho client) calls they issue and a status value that
stands for the `messagebox` / `status_label` feedback shown to the
user.  Exceptions raised by the paho client primitives are modelled by
a boolean oracle: when it is `true` the primitive raises after being
invoked, and control transfers to the surrounding `except` clause.
-/

namespace TwitterMqtt

/-- Characters stripped by Python's `str.strip()` (the ASCII whitespace
class; the Unicode space characters Python additionally strips play no
role in this development). -/
def pyIsSpace (c : Char) : Bool :=
  c == ' ' || c == '\t' || c == '\n' || c == '\r' || c == '\x0b' || c == '\x0c'

/-- `str.strip()` on the character list of a string: drop leading and
trailing whitespace. -/
def stripChars (l : List Char) : List Char :=
  ((l.dropWhile pyIsSpace).reverse.dropWhile pyIsSpace).reverse

/-- `str.strip()` lifted back to `String`. -/
def pyStrip (s : String) : String :=
  String.mk (stripChars s.toList)

/-- `normalize_topic` from `publisher.py` lines 15-21 and
`subscriber.py` lines 16-22 (the two copies are textually identical):

    tag = raw_hashtag.strip()
    if tag.startswith("#"):
        tag = tag[1:].strip()
    if not tag:
        return ""
    return f"twitter/{tag}"
-/
def normalize_topic (raw_hashtag : String) : String :=
  let tag := stripChars raw_hashtag.toList
  let tag :=
    match tag with
    | '#' :: rest => stripChars rest
    | t => t
  if tag = [] then "" else String.mk ("twitter/".toList ++ tag)

/-- The tag a raw hashtag reduces to before the namespace is prefixed:
surrounding whitespace stripped, then exactly one leading `'#'` (and
the whitespace following it) stripped. -/
def strippedTag (raw_hashtag : String) : List Char :=
  match stripChars raw_hashtag.toList with
  | '#' :: rest => stripChars rest
  | t => t

example : normalize_topic "  #Test  " = "twitter/Test" := by decide
example : normalize_topic "  ##Test  " = "twitter/#Test" := by decide
example : normalize_topic "#" = "" := by decide
example : normalize_topic "   " = "" := by decide
example : normalize_topic " # Test " = "twitter/Test" := by decide

/-! ## The message hand-off queue (`queue.Queue()` in `subscriber.py`)

`SubscriberApp.msg_queue = queue.Queue()` is created with no `maxsize`
argument, so it is an unbounded FIFO.  We model its contents as a list,
oldest element first. -/

/-- A queued item `(topic, payload)` as pushed by `on_message` and by
the `[System] ...` notes of `subscribe`/`unsubscribe`. -/
abbrev Msg := String × String

/-- `queue.Queue.put`: append at the tail.  The queue is unbounded, so
`put` is total (it never blocks and never drops). -/
def qput (q : List Msg) (m : Msg) : List Msg :=
  q ++ [m]

/-- `queue.Queue.get` as used by `process_queue`: take the oldest
element, provided the queue is non-empty. -/
def qget : List Msg → Option (Msg × List Msg)
  | [] => none
  | m :: rest => some (m, rest)

/-- `SubscriberApp.process_queue` (lines 102-111) loops
`while not self.msg_queue.empty(): self.msg_queue.get()` and appends
each message to the text widget; `drainQueue` returns the sequence of
messages in the order `get` delivers them. -/
def drainQueue : List Msg → List Msg
  | [] => []
  | m :: rest => m :: drainQueue rest

/-! ## Raw transport calls

The paho client primitives the handlers invoke.  Each handler below
returns the list of such calls it issued, in order. -/

/-- A call into a paho `mqtt.Client` primitive. -/
inductive RawCall
  | sub (topic : String)
  | unsub (topic : String)
  | pub (topic : String) (payload : String)
  deriving DecidableEq, Repr

/-! ## Subscriber state and handlers -/

/-- The mutable state of `SubscriberApp` relevant to the claims: the
`subscribed` set (line 51) and the `msg_queue` contents (line 54). -/
structure SubscriberState where
  subscribed : Finset String
  msgQueue : List Msg
  deriving DecidableEq

/-- Status value standing for the `messagebox` / `status_label`
feedback of the subscriber's button handlers. -/
inductive SubStatus
  | emptyWarn
  | alreadySubscribed
  | subscribedOk
  | subscribeError
  | notSubscribed
  | unsubscribedOk
  | unsubscribeError
  deriving DecidableEq, Repr

/-- The replay loop inside `on_connect` (lines 81-86):

    for t in list(self.subscribed):
        try:
            self.client.subscribe(t)
            self.update_status(...)
        except Exception:
            pass

`client.subscribe(t)` is invoked before it can raise; when it raises
(`fails t = true`) the `except` clause swallows the exception and the
loop resumes with the next topic, so the emitted raw call is recorded
either way. -/
def replayLoop (fails : String → Bool) : List String → List RawCall
  | [] => []
  | t :: rest => RawCall.sub t :: replayLoop fails rest

/-- `SubscriberApp.on_connect` (lines 77-88): on `rc == 0` it replays a
subscription for every topic of `list(self.subscribed)`; on any other
`rc` it only reports failure and issues no raw call.  `snapshot` is the
list `list(self.subscribed)` builds from the set: its order is
unspecified and its elements are distinct (a Python `set` holds no
duplicates), which the theorems state as a `Nodup` hypothesis.  The
result is the list of raw transport calls issued during the
callback. -/
def on_connect (rc : Int) (snapshot : List String)
    (fails : String → Bool) : List RawCall :=
  if rc = 0 then replayLoop fails snapshot else []

/-- The body of `SubscriberApp.on_message` (lines 94-98) before the
`except` clause: decode the payload and push `(topic, payload)` onto
the queue.  Decoding (or any other step) may raise, which we model by
the `Except` argument. -/
def on_message_body (st : SubscriberState) (topic : String)
    (decoded : Except Unit String) : Except Unit SubscriberState := do
  let payload ← decoded
  pure { st with msgQueue := qput st.msgQueue (topic, payload) }

/-- `SubscriberApp.on_message` (lines 93-100) with its
`except Exception: pass` handler: the callback always returns normally
(`Except.ok`); a failure in the body leaves the state unchanged. -/
def on_message (st : SubscriberState) (topic : String)
    (decoded : Except Unit String) : Except Unit SubscriberState :=
  Except.ok (match on_message_body st topic decoded with
    | Except.ok st' => st'
    | Except.error _ => st)

/-- `SubscriberApp.subscribe` (lines 118-136).  `entry` is the text of
the hashtag entry widget; `raises` tells whether `client.subscribe`
raises.  Returns the new state, the raw calls issued, and the user
feedback.

    raw = self.hashtag_entry.get().strip()
    topic = normalize_topic(raw)
    if not topic: ...warning...; return
    if topic in self.subscribed: ...info...; return
    try:
        self.client.subscribe(topic)
        self.subscribed.add(topic)
        self.update_status(...)
        self.msg_queue.put((topic, "[System] Subscribed"))
    except Exception as e: ...error...
-/
def subscribeOp (st : SubscriberState) (raises : Bool) (entry : String) :
    SubscriberState × List RawCall × SubStatus :=
  let raw := pyStrip entry
  let topic := normalize_topic raw
  if topic = "" then
    (st, [], SubStatus.emptyWarn)
  else if topic ∈ st.subscribed then
    (st, [], SubStatus.alreadySubscribed)
  else if raises then
    -- client.subscribe(topic) raised: the add and the queue put are skipped
    (st, [RawCall.sub topic], SubStatus.subscribeError)
  else
    ({ subscribed := insert topic st.subscribed,
       msgQueue := qput st.msgQueue (topic, "[System] Subscribed") },
     [RawCall.sub topic], SubStatus.subscribedOk)

/-- `SubscriberApp.unsubscribe` (lines 138-155), same shape:

    raw = self.hashtag_entry.get().strip()
    topic = normalize_topic(raw)
    if not topic: ...warning...; return
    if topic not in self.subscribed: ...info...; return
    try:
        self.client.unsubscribe(topic)
        self.subscribed.remove(topic)
        self.update_status(...)
        self.msg_queue.put((topic, "[System] Unsubscribed"))
    except Exception as e: ...error...
-/
def unsubscribeOp (st : SubscriberState) (raises : Bool) (entry : String) :
    SubscriberState × List RawCall × SubStatus :=
  let raw := pyStrip entry
  let topic := normalize_topic raw
  if topic = "" then
    (st, [], SubStatus.emptyWarn)
  else if topic ∉ st.subscribed then
    (st, [], SubStatus.notSubscribed)
  else if raises then
    -- client.unsubscribe(topic) raised: the remove and the queue put are skipped
    (st, [RawCall.unsub topic], SubStatus.unsubscribeError)
  else
    ({ subscribed := st.subscribed.erase topic,
       msgQueue := qput st.msgQueue (topic, "[System] Unsubscribed") },
     [RawCall.unsub topic], SubStatus.unsubscribedOk)

/-! ## Publisher handler -/

/-- Status value standing for the `messagebox` / `status_label`
feedback of `publish_tweet`. -/
inductive PubStatus
  | missingUsername
  | emptyTweet
  | emptyHashtag
  | published
  | publishError
  deriving DecidableEq, Repr

/-- `PublisherApp.publish_tweet` (lines 84-109).  The widget inputs are
the parameters; `connected` is the connection state the on_connect/
on_disconnect callbacks track — the body never reads it (the source
performs no connection-state check before publishing).  `raises` tells
whether `client.publish` raises; paho's `publish` on a disconnected
client returns an `MQTTMessageInfo` carrying an error code instead of
raising, and the source ignores that code (line 103's comment notes it
could be checked).

    username = self.username_entry.get().strip()
    message = self.tweet_text.get("1.0", tk.END).strip()
    raw_hashtag = self.hashtag_entry.get().strip()
    topic = normalize_topic(raw_hashtag)
    if not username: ...warning...; return
    if not message: ...warning...; return
    if not topic: ...warning...; return
    payload = f"{username}: {message}"
    try:
        rc = self.client.publish(topic, payload)
        self.update_status(f"Published to {topic}", ...)
        self.tweet_text.delete(...)
    except Exception as e: ...error...
-/
def publish_tweet (connected : Bool) (raises : Bool)
    (usernameEntry tweetText hashtagEntry : String) :
    List RawCall × PubStatus :=
  let username := pyStrip usernameEntry
  let message := pyStrip tweetText
  let raw_hashtag := pyStrip hashtagEntry
  let topic := normalize_topic raw_hashtag
  if username = "" then
    ([], PubStatus.missingUsername)
  else if message = "" then
    ([], PubStatus.emptyTweet)
  else if topic = "" then
    ([], PubStatus.emptyHashtag)
  else
    let payload := username ++ ": " ++ message
    if raises then
      ([RawCall.pub topic payload], PubStatus.publishError)
    else
      ([RawCall.pub topic payload], PubStatus.published)

/-! ## Helper lemmas -/

theorem dropWhile_idem (p : Char → Bool) (l : List Char) :
    (l.dropWhile p).dropWhile p = l.dropWhile p := by
  induction l with
  | nil => rfl
  | cons c tl ih =>
    by_cases h : p c
    · simp [List.dropWhile_cons, h, ih]
    · simp [List.dropWhile_cons, h]

theorem head_not_of_dropWhile_self (p : Char → Bool) (c : Char) (y : List Char)
    (h : (c :: y).dropWhile p = c :: y) : p c = false := by
  by_contra hc
  rw [Bool.not_eq_false] at hc
  rw [List.dropWhile_cons, if_pos hc] at h
  have hlen : (y.dropWhile p).length ≤ y.length :=
    (List.dropWhile_suffix p).sublist.length_le
  rw [h] at hlen
  simp at hlen

/-- `str.strip()` is idempotent. -/
theorem stripChars_idem (l : List Char) : stripChars (stripChars l) = stripChars l := by
  unfold stripChars
  have hA : (l.dropWhile pyIsSpace).dropWhile pyIsSpace = l.dropWhile pyIsSpace :=
    dropWhile_idem _ l
  set A := l.dropWhile pyIsSpace with hAdef
  set B := (A.reverse.dropWhile pyIsSpace).reverse with hBdef
  have hB2 : B.reverse.dropWhile pyIsSpace = B.reverse := by
    rw [hBdef, List.reverse_reverse]
    exact dropWhile_idem _ _
  have hBpre : B.dropWhile pyIsSpace = B := by
    cases hb : B with
    | nil => rfl
    | cons c tl =>
      have hsfx : B.reverse <:+ A.reverse := by
        rw [hBdef, List.reverse_reverse]
        exact List.dropWhile_suffix _
      have hpre : B <+: A := List.reverse_suffix.mp hsfx
      obtain ⟨t, ht⟩ := hpre
      rw [hb] at ht
      have hAc : A.dropWhile pyIsSpace = A := hA
      rw [← ht] at hAc
      have hcfalse : pyIsSpace c = false :=
        head_not_of_dropWhile_self pyIsSpace c (tl ++ t) (by simpa using hAc)
      simp [List.dropWhile_cons, hcfalse]
  rw [hBpre, hB2, List.reverse_reverse]

/-- The handlers normalize `entry.strip()`; since `strip` is idempotent
this is the same as normalizing the entry text itself. -/
theorem normalize_topic_pyStrip (e : String) :
    normalize_topic (pyStrip e) = normalize_topic e := by
  unfold normalize_topic
  rw [show (pyStrip e).toList = stripChars e.toList from rfl, stripChars_idem]

theorem replayLoop_eq_map (fails : String → Bool) (l : List String) :
    replayLoop fails l = l.map RawCall.sub := by
  induction l with
  | nil => rfl
  | cons t rest ih => simp [replayLoop, ih]

theorem foldl_qput (msgs : List Msg) : ∀ q : List Msg, msgs.foldl qput q = q ++ msgs := by
  induction msgs with
  | nil => intro q; simp
  | cons m rest ih => intro q; simp [qput, ih]

theorem drainQueue_id (l : List Msg) : drainQueue l = l := by
  induction l with
  | nil => rfl
  | cons m rest ih => simp [drainQueue, ih]

/-! ## Claims -/

/-- C1: `normalize_topic` strips surrounding whitespace and exactly one
leading `'#'` (and the whitespace after it); whenever the remaining tag
is non-empty the result is that tag prefixed with the fixed namespace
`"twitter/"` (otherwise the result is `""`).  In particular
`normalize_topic "  #Test  " = "twitter/Test"`, and a second leading
`'#'` is not stripped: `normalize_topic "  ##Test  " = "twitter/#Test"`. -/
theorem C1_normalize_topic_strips_once_and_prefixes :
    normalize_topic "  #Test  " = "twitter/Test" ∧
    normalize_topic "  ##Test  " = "twitter/#Test" ∧
    ∀ raw : String,
      (normalize_topic raw = "" ↔ strippedTag raw = []) ∧
      (normalize_topic raw = "" ∨
        normalize_topic raw = "twitter/" ++ String.mk (strippedTag raw)) := by
  refine ⟨by decide, by decide, fun raw => ?_⟩
  have he : normalize_topic raw =
      if strippedTag raw = [] then ""
      else String.mk ("twitter/".toList ++ strippedTag raw) := rfl
  by_cases h : strippedTag raw = []
  · exact ⟨by simp [he, h], Or.inl (by simp [he, h])⟩
  · have hmk : String.mk ("twitter/".toList ++ strippedTag raw) =
        "twitter/" ++ String.mk (strippedTag raw) := rfl
    refine ⟨?_, Or.inr (by rw [he, if_neg h, hmk])⟩
    rw [he, if_neg h]
    constructor
    · intro hcontra
      have := congrArg String.toList hcontra
      simp at this
    · intro h'
      exact absurd h' h

/-- C2: in the `on_connect` callback with `rc == 0`, a raw subscribe
call is issued exactly once for each topic of the subscribed-set
snapshot (which holds no duplicates), the issued calls do not depend on
which raw subscribes fail (a failure is swallowed and the loop
continues), and on `rc ≠ 0` no raw call is issued. -/
theorem C2_on_connect_replays_each_topic_once :
    ∀ (snapshot : List String) (fails : String → Bool) (t : String),
      (snapshot.Nodup → t ∈ snapshot →
        (on_connect 0 snapshot fails).count (RawCall.sub t) = 1) ∧
      on_connect 0 snapshot fails = on_connect 0 snapshot (fun _ => false) ∧
      (∀ rc : Int, rc ≠ 0 → on_connect rc snapshot fails = []) := by
  intro snapshot fails t
  refine ⟨fun hnd hmem => ?_, ?_, fun rc hrc => ?_⟩
  · unfold on_connect
    rw [if_pos rfl, replayLoop_eq_map]
    have hinj : Function.Injective RawCall.sub := fun a b h => by
      cases h; rfl
    rw [List.count_map_of_injective _ _ hinj]
    exact List.count_eq_one_of_mem hnd hmem
  · simp [on_connect, replayLoop_eq_map]
  · unfold on_connect
    rw [if_neg hrc]

/-- Witness for C2: with snapshot `["twitter/a", "twitter/b"]` and the
raw subscribe failing on `"twitter/b"`, the callback still issues the
subscribe for `"twitter/a"` exactly once. -/
theorem C2_witness :
    (on_connect 0 ["twitter/a", "twitter/b"]
        (fun s => s == "twitter/b")).count (RawCall.sub "twitter/a") = 1 :=
  (C2_on_connect_replays_each_topic_once ["twitter/a", "twitter/b"]
      (fun s => s == "twitter/b") "twitter/a").1 (by decide) (by decide)

/-- C3: the hand-off queue is a single global FIFO: any sequence of
messages pushed by the receive callback is drained by `process_queue`
in exactly the push order, across topics; in particular pushing
`m1` (topic A), `m2` (topic B), `m3` (topic A) yields pop order
`m1, m2, m3`. -/
theorem C3_queue_is_global_fifo :
    (∀ msgs : List Msg, drainQueue (msgs.foldl qput []) = msgs) ∧
    drainQueue (qput (qput (qput [] ("twitter/A", "m1")) ("twitter/B", "m2"))
        ("twitter/A", "m3")) =
      [("twitter/A", "m1"), ("twitter/B", "m2"), ("twitter/A", "m3")] := by
  constructor
  · intro msgs
    rw [foldl_qput, List.nil_append, drainQueue_id]
  · decide

/-- Counterexample to C4: while disconnected (`connected = false`),
`publish_tweet` with valid inputs still calls the client's publish
primitive (the issued-call list is non-empty) and reports success — it
does not return a NotConnected error (no such status exists in the
code). -/
theorem C4_counterexample :
    (publish_tweet false false "anon_user" "hello" "#test").1 ≠ [] ∧
    (publish_tweet false false "anon_user" "hello" "#test").2 = PubStatus.published := by
  decide

/-- C4 (amended): `publish_tweet` performs no connection-state check:
for every connection state, once username, message and topic validate
as non-empty it issues the raw `client.publish` call exactly once with
payload `"<username>: <message>"`, reporting success unless the call
itself raises; the return code of the primitive is never inspected and
no NotConnected result exists. -/
theorem C4_publish_ignores_connection_state :
    ∀ (connected raises : Bool) (u msgText tag : String),
      pyStrip u ≠ "" → pyStrip msgText ≠ "" → normalize_topic tag ≠ "" →
      publish_tweet connected raises u msgText tag =
        ([RawCall.pub (normalize_topic tag) (pyStrip u ++ ": " ++ pyStrip msgText)],
          if raises then PubStatus.publishError else PubStatus.published) := by
  intro connected raises u msgText tag hu hm ht
  simp only [publish_tweet, normalize_topic_pyStrip]
  rw [if_neg hu, if_neg hm, if_neg ht]
  cases raises <;> rfl

/-- Witness for the amended C4 at a connected client. -/
theorem C4_witness :
    publish_tweet true false "alice" "hi" "#x" =
      ([RawCall.pub "twitter/x" "alice: hi"], PubStatus.published) :=
  (C4_publish_ignores_connection_state true false "alice" "hi" "#x"
      (by decide) (by decide) (by decide)).trans (by decide)

/-- Counterexample to C5: the queue is `queue.Queue()` with no
`maxsize`; taking a purported capacity `N = 1` and pushing `N + 1 = 2`
messages, the oldest message is still present (nothing is dropped) and
the queue holds both messages. -/
theorem C5_counterexample :
    ("twitter/A", "m1") ∈ qput (qput [] ("twitter/A", "m1")) ("twitter/B", "m2") ∧
    (qput (qput [] ("twitter/A", "m1")) ("twitter/B", "m2")).length = 2 := by
  decide

/-- C5 (amended): the hand-off queue is unbounded: pushing any
`N + 1` messages with no intervening pop keeps all of them, in push
order — no message is dropped, no drop counter exists, and `put` is
total (it never blocks). -/
theorem C5_queue_is_unbounded :
    ∀ (m : Msg) (rest : List Msg),
      (m :: rest).foldl qput [] = m :: rest ∧
      ((m :: rest).foldl qput []).length = rest.length + 1 := by
  intro m rest
  rw [foldl_qput]
  simp

/-- C6: the subscription-set mutations are idempotent: subscribing a
topic already in the subscribed set leaves the state unchanged (and
issues no raw call), unsubscribing a topic not in the set leaves the
state unchanged (and issues no raw call), and a second subscribe of the
same entry right after a first changes nothing. -/
theorem C6_subscription_mutations_idempotent :
    ∀ (st : SubscriberState) (r r2 : Bool) (e : String),
      (normalize_topic e ∈ st.subscribed →
        (subscribeOp st r e).1 = st ∧ (subscribeOp st r e).2.1 = []) ∧
      (normalize_topic e ∉ st.subscribed →
        (unsubscribeOp st r e).1 = st ∧ (unsubscribeOp st r e).2.1 = []) ∧
      (subscribeOp (subscribeOp st false e).1 r2 e).1 = (subscribeOp st false e).1 := by
  intro st r r2 e
  refine ⟨fun hmem => ?_, fun hmem => ?_, ?_⟩
  · by_cases h0 : normalize_topic e = ""
    · simp [subscribeOp, normalize_topic_pyStrip, h0]
    · simp [subscribeOp, normalize_topic_pyStrip, h0, hmem]
  · by_cases h0 : normalize_topic e = ""
    · simp [unsubscribeOp, normalize_topic_pyStrip, h0]
    · simp [unsubscribeOp, normalize_topic_pyStrip, h0, hmem]
  · by_cases h0 : normalize_topic e = ""
    · simp [subscribeOp, normalize_topic_pyStrip, h0]
    · by_cases hmem : normalize_topic e ∈ st.subscribed
      · simp [subscribeOp, normalize_topic_pyStrip, h0, hmem]
      · simp [subscribeOp, normalize_topic_pyStrip, h0, hmem,
          Finset.mem_insert_self]

/-- Witness for C6: subscribing `"#a"` while `"twitter/a"` is already
subscribed changes nothing and issues no raw call. -/
theorem C6_witness :
    (subscribeOp ⟨{"twitter/a"}, []⟩ false "#a").1 = ⟨{"twitter/a"}, []⟩ ∧
    (subscribeOp ⟨{"twitter/a"}, []⟩ false "#a").2.1 = [] :=
  (C6_subscription_mutations_idempotent ⟨{"twitter/a"}, []⟩ false false "#a").1
    (by decide)

/-- C7: a hashtag input that normalizes to the empty string is rejected
at the public boundary before any I/O: `subscribe` and `unsubscribe`
return with a warning, issue no raw transport call, and leave the state
untouched, and `publish_tweet` issues no raw transport call either. -/
theorem C7_empty_topic_rejected_before_io :
    ∀ (st : SubscriberState) (r : Bool) (e : String)
      (connected pr : Bool) (u msgText : String),
      normalize_topic e = "" →
        subscribeOp st r e = (st, [], SubStatus.emptyWarn) ∧
        unsubscribeOp st r e = (st, [], SubStatus.emptyWarn) ∧
        (publish_tweet connected pr u msgText e).1 = [] := by
  intro st r e connected pr u msgText h
  refine ⟨?_, ?_, ?_⟩
  · simp [subscribeOp, normalize_topic_pyStrip, h]
  · simp [unsubscribeOp, normalize_topic_pyStrip, h]
  · simp only [publish_tweet, normalize_topic_pyStrip, h]
    split_ifs <;> rfl

/-- Witness for C7 at the input `"#"`, which normalizes to `""`. -/
theorem C7_witness :
    subscribeOp ⟨∅, []⟩ false "#" = (⟨∅, []⟩, [], SubStatus.emptyWarn) ∧
    unsubscribeOp ⟨∅, []⟩ false "#" = (⟨∅, []⟩, [], SubStatus.emptyWarn) ∧
    (publish_tweet false false "anon_user" "hello" "#").1 = [] :=
  C7_empty_topic_rejected_before_io ⟨∅, []⟩ false "#" false false "anon_user" "hello"
    (by decide)

/-- Counterexample to C8: a subscription created by subscribing `"#a"`
is physically deleted from the subscribed set by the following
unsubscribe request — no record of it remains. -/
theorem C8_counterexample :
    "twitter/a" ∉
      (unsubscribeOp (subscribeOp ⟨∅, []⟩ false "#a").1 false "#a").1.subscribed := by
  decide

/-- C8 (amended): an unsubscribe request whose raw call succeeds
physically removes the topic from the subscribed set; the code keeps no
per-topic active/inactive record. -/
theorem C8_unsubscribe_removes_record :
    ∀ (st : SubscriberState) (e : String),
      normalize_topic e ≠ "" → normalize_topic e ∈ st.subscribed →
      (unsubscribeOp st false e).1.subscribed =
        st.subscribed.erase (normalize_topic e) ∧
      normalize_topic e ∉ (unsubscribeOp st false e).1.subscribed := by
  intro st e h0 hmem
  simp only [unsubscribeOp, normalize_topic_pyStrip]
  rw [if_neg h0, if_neg (not_not_intro hmem)]
  simp only [Bool.false_eq_true, if_false]
  exact ⟨trivial, Finset.not_mem_erase _ _⟩

/-- Witness for the amended C8. -/
theorem C8_witness :
    (unsubscribeOp ⟨{"twitter/a"}, []⟩ false "#a").1.subscribed =
      Finset.erase {"twitter/a"} (normalize_topic "#a") ∧
    normalize_topic "#a" ∉ (unsubscribeOp ⟨{"twitter/a"}, []⟩ false "#a").1.subscribed :=
  C8_unsubscribe_removes_record ⟨{"twitter/a"}, []⟩ "#a" (by decide) (by decide)

/-- C9: the `on_message` callback always returns normally — the
`except Exception: pass` handler swallows any failure of the body (the
result is always `Except.ok`), and on a failure the state is left
unchanged. -/
theorem C9_on_message_never_throws :
    ∀ (st : SubscriberState) (topic : String) (decoded : Except Unit String),
      (∃ st', on_message st topic decoded = Except.ok st') ∧
      on_message st topic (Except.error ()) = Except.ok st := by
  intro st topic decoded
  exact ⟨⟨_, rfl⟩, rfl⟩

/-- C10: when the raw transport call raises, `subscribe` and
`unsubscribe` leave the whole state (subscribed set and message queue)
exactly as it was before the request. -/
theorem C10_failed_raw_call_is_atomic :
    ∀ (st : SubscriberState) (e : String),
      (subscribeOp st true e).1 = st ∧ (unsubscribeOp st true e).1 = st := by
  intro st e
  refine ⟨?_, ?_⟩
  · simp only [subscribeOp]
    split_ifs <;> rfl
  · simp only [unsubscribeOp]
    split_ifs <;> rfl

end TwitterMqtt
